import Mathlib

/-!
Verification of the Sponsorship-Workflow-Engine (src/main.py).

The program keeps an in-memory list `TASK_STORE` of task records and a set
`SYNC_SPONSORS` of sponsors registered for periodic refresh.  Three mock
source adapters return fixed per-sponsor task lists.  The handlers are:
  * `sync_tasks`   (POST /sync-tasks): validate `sponsor_id`, register the
    sponsor, fetch from all three adapters, replace the sponsor's slice of
    the store (filter out then extend);
  * `list_tasks`   (GET /tasks): optional exact-match filters on
    `sponsor_id` and `status` (Python truthiness: an empty string behaves
    like an absent parameter);
  * `update_task_by_fields` (PATCH /tasks): validate four fields, set
    `status` on every record matching (sponsor_id, source, name), 404 when
    none matched;
  * `periodic_sync`: re-run the fetch-and-replace for every registered
    sponsor.
Each definition below is a direct translation of the corresponding Python
function; request fields that may be absent are `Option String` (Python
`None`), and Flask `abort` is an error value.
-/

namespace Sponsorship

/-- A task record (the dict shape documented in src/main.py). -/
structure Task where
  sponsor_id : String
  source : String
  name : String
  due_date : String
  status : String
deriving DecidableEq, Repr

/-- Errors raised by the handlers via Flask `abort` (400/404) or, in the
fallible-adapter model, by a source fetch. -/
inductive ApiError where
  | invalidInput (msg : String)
  | notFound (msg : String)
  | sourceFetchFailure (source : String)
deriving DecidableEq, Repr

instance exceptDecEq {ε α : Type} [DecidableEq ε] [DecidableEq α] :
    DecidableEq (Except ε α) := fun x y =>
  match x, y with
  | .ok a, .ok b =>
      if h : a = b then .isTrue (by rw [h]) else .isFalse (by simp [h])
  | .error a, .error b =>
      if h : a = b then .isTrue (by rw [h]) else .isFalse (by simp [h])
  | .ok _, .error _ => .isFalse (by simp)
  | .error _, .ok _ => .isFalse (by simp)

/-- The module-level mutable state: `TASK_STORE` (a list) and
`SYNC_SPONSORS` (a Python set, modelled as a duplicate-free list). -/
structure AppState where
  TASK_STORE : List Task
  SYNC_SPONSORS : List String
deriving DecidableEq, Repr

/-- Python `set.add`: insert unless already present. -/
def pySetAdd (s : List String) (x : String) : List String :=
  if x ∈ s then s else x :: s

/-- Mock Salesforce adapter (src/main.py lines 66-70). -/
def get_salesforce_tasks (sponsor_id : String) : List Task :=
  [⟨sponsor_id, "salesforce", "Finalize contract", "2025-08-01", "pending"⟩,
   ⟨sponsor_id, "salesforce", "Upload logo", "2025-08-05", "pending"⟩]

/-- Mock Asana adapter (src/main.py lines 72-76). -/
def get_asana_tasks (sponsor_id : String) : List Task :=
  [⟨sponsor_id, "asana", "Post campaign assets", "2025-07-30", "done"⟩,
   ⟨sponsor_id, "asana", "Review creative brief", "2025-08-03", "pending"⟩]

/-- Mock Google Calendar adapter (src/main.py lines 78-82). -/
def get_google_calendar_tasks (sponsor_id : String) : List Task :=
  [⟨sponsor_id, "google_calendar", "Activation deadline", "2025-08-10", "pending"⟩,
   ⟨sponsor_id, "google_calendar", "Post-event report", "2025-08-20", "pending"⟩]

/-- The concatenation built in sync_tasks lines 101-104 (and again in
periodic_sync lines 158-161): salesforce ++ asana ++ google_calendar. -/
def fetch_all (sponsor_id : String) : List Task :=
  get_salesforce_tasks sponsor_id ++ get_asana_tasks sponsor_id
    ++ get_google_calendar_tasks sponsor_id

/-- First store-mutation step of a sync (line 108): rebind `TASK_STORE` to
the list with the sponsor's records filtered out. -/
def replace_step1 (store : List Task) (sponsor_id : String) : List Task :=
  store.filter (fun t => t.sponsor_id ≠ sponsor_id)

/-- Second store-mutation step of a sync (line 109): extend with the
freshly fetched tasks. -/
def replace_step2 (store : List Task) (tasks : List Task) : List Task :=
  store ++ tasks

/-- POST /sync-tasks handler (src/main.py lines 85-111).  Returns the new
state together with the response: `abort(400)` when `sponsor_id` is
missing (None) or empty, otherwise the fetched task list. -/
def sync_tasks (st : AppState) (sponsor_id : Option String) :
    AppState × Except ApiError (List Task) :=
  match sponsor_id with
  | none => (st, .error (.invalidInput "Missing sponsor_id"))
  | some sid =>
    if sid = "" then (st, .error (.invalidInput "Missing sponsor_id"))
    else
      let sponsors := pySetAdd st.SYNC_SPONSORS sid
      let tasks := fetch_all sid
      let store := replace_step2 (replace_step1 st.TASK_STORE sid) tasks
      (⟨store, sponsors⟩, .ok tasks)

/-- GET /tasks handler (src/main.py lines 113-129).  Each filter is applied
only when the query parameter is present and non-empty (Python
`if sponsor:` / `if status:` truthiness). -/
def list_tasks (store : List Task) (sponsor status : Option String) :
    List Task :=
  let r1 :=
    match sponsor with
    | some s => if s ≠ "" then store.filter (fun t => t.sponsor_id = s) else store
    | none => store
  match status with
  | some s => if s ≠ "" then r1.filter (fun t => t.status = s) else r1
  | none => r1

/-- The record-match predicate of the PATCH loop (lines 143-145). -/
def task_matches (t : Task) (sponsor source name : String) : Bool :=
  t.sponsor_id = sponsor && t.source = source && t.name = name

/-- PATCH /tasks handler (src/main.py lines 131-150).  All four fields must
be present and non-empty (`not all([...])` truthiness check), else
`abort(400)` before the loop.  The loop sets `status` on every matching
record; 404 afterwards iff nothing matched (the loop has run, but with
zero matches it changed nothing). -/
def update_task_by_fields (st : AppState)
    (sponsor source name status : Option String) :
    AppState × Except ApiError Bool :=
  match sponsor, source, name, status with
  | some sp, some so, some nm, some ns =>
    if sp = "" ∨ so = "" ∨ nm = "" ∨ ns = "" then
      (st, .error (.invalidInput "Must include sponsor_id, source, name, and status"))
    else
      let newStore := st.TASK_STORE.map
        (fun t => if task_matches t sp so nm then { t with status := ns } else t)
      let matched := st.TASK_STORE.any (fun t => task_matches t sp so nm)
      if matched then ({ st with TASK_STORE := newStore }, .ok true)
      else ({ st with TASK_STORE := newStore }, .error (.notFound "No matching task found"))
  | _, _, _, _ =>
      (st, .error (.invalidInput "Must include sponsor_id, source, name, and status"))

/-- Re-sync one sponsor inside the periodic job (src/main.py lines
158-165): same fetch-and-replace as the manual sync, no registration. -/
def periodic_sync_one (store : List Task) (sponsor_id : String) : List Task :=
  replace_step2 (replace_step1 store sponsor_id) (fetch_all sponsor_id)

/-- Background job (src/main.py lines 153-165): fetch-and-replace for every
sponsor in `SYNC_SPONSORS`; the registered-sponsor set is read, never
written. -/
def periodic_sync (st : AppState) : AppState :=
  { st with TASK_STORE := st.SYNC_SPONSORS.foldl periodic_sync_one st.TASK_STORE }

/-- The sync handler with the three source adapters abstracted as fallible
collaborators (spec 6: `fetch(sponsor_id) -> ordered sequence of Task
Record, may fail`); an adapter failure is a Python exception, which
propagates out of the handler before any store mutation, since lines
101-104 (the fetches) precede lines 107-109 (the store mutation).  With
the never-failing mock adapters this coincides with `sync_tasks`
(`sync_tasks_with_mock_adapters` below). -/
def sync_tasks_with (st : AppState) (sponsor_id : Option String)
    (sf asn gc : String → Except ApiError (List Task)) :
    AppState × Except ApiError (List Task) :=
  match sponsor_id with
  | none => (st, .error (.invalidInput "Missing sponsor_id"))
  | some sid =>
    if sid = "" then (st, .error (.invalidInput "Missing sponsor_id"))
    else
      let st1 : AppState := { st with SYNC_SPONSORS := pySetAdd st.SYNC_SPONSORS sid }
      match sf sid with
      | .error e => (st1, .error e)
      | .ok t1 =>
        match asn sid with
        | .error e => (st1, .error e)
        | .ok t2 =>
          match gc sid with
          | .error e => (st1, .error e)
          | .ok t3 =>
            let tasks := t1 ++ t2 ++ t3
            ({ st1 with
                TASK_STORE := replace_step2 (replace_step1 st.TASK_STORE sid) tasks },
             .ok tasks)

/-- Records stored for a given sponsor, in store order. -/
def records_for (store : List Task) (sponsor_id : String) : List Task :=
  store.filter (fun t => t.sponsor_id = sponsor_id)

/-- The spec's reading of the `ListTasks` filters (P4 and spec 4.4):
exact-match equality on each provided filter, logical AND between the two,
identity when a filter is omitted.  Written from the spec's words to be
compared with `list_tasks`, the translation of the code. -/
def list_tasks_spec (store : List Task) (sponsor status : Option String) :
    List Task :=
  store.filter (fun t =>
    (match sponsor with
     | some s => decide (t.sponsor_id = s)
     | none => true)
    && (match status with
        | some s => decide (t.status = s)
        | none => true))

theorem sync_tasks_with_mock_adapters (st : AppState) (sid : Option String) :
    sync_tasks_with st sid (fun s => .ok (get_salesforce_tasks s))
      (fun s => .ok (get_asana_tasks s)) (fun s => .ok (get_google_calendar_tasks s))
      = sync_tasks st sid := by
  match sid with
  | none => rfl
  | some s =>
    by_cases h : s = "" <;>
      simp [sync_tasks_with, sync_tasks, h, fetch_all]

/-- The state after the scenario's first step: syncing "sponsor-abc" into
the empty initial state. -/
def scenario_st1 : AppState := (sync_tasks ⟨[], []⟩ (some "sponsor-abc")).1

/-- The scenario's second step: the update call on `scenario_st1`. -/
def scenario_upd : AppState × Except ApiError Bool :=
  update_task_by_fields scenario_st1 (some "sponsor-abc") (some "salesforce")
    (some "Finalize contract") (some "done")

theorem records_for_append (a b : List Task) (s : String) :
    records_for (a ++ b) s = records_for a s ++ records_for b s := by
  simp [records_for]

theorem records_for_replace_step1_self (store : List Task) (s : String) :
    records_for (replace_step1 store s) s = [] := by
  simp [records_for, replace_step1]

theorem records_for_replace_step1_other (store : List Task) (A B : String)
    (h : B ≠ A) :
    records_for (replace_step1 store A) B = records_for store B := by
  unfold records_for replace_step1
  rw [List.filter_filter]
  apply List.filter_congr
  intro t _
  by_cases hB : t.sponsor_id = B
  · simp [hB, h]
  · simp [hB]

theorem records_for_fetch_all_self (s : String) :
    records_for (fetch_all s) s = fetch_all s := by
  simp [records_for, fetch_all, get_salesforce_tasks, get_asana_tasks,
    get_google_calendar_tasks]

theorem records_for_fetch_all_other (A B : String) (h : B ≠ A) :
    records_for (fetch_all A) B = [] := by
  simp [records_for, fetch_all, get_salesforce_tasks, get_asana_tasks,
    get_google_calendar_tasks]
  exact fun hBA => absurd hBA.symm h

/-- C1: after a successful sync for sponsor S, the records stored for S are
exactly the concatenation of the three adapters' outputs for S, in adapter
order salesforce, asana, google_calendar, each adapter's within-list order
preserved; no record for S from any earlier state remains. -/
theorem C1_replace_exact (st st' : AppState) (S : String) (resp : List Task)
    (h : sync_tasks st (some S) = (st', .ok resp)) :
    records_for st'.TASK_STORE S
      = get_salesforce_tasks S ++ get_asana_tasks S ++ get_google_calendar_tasks S := by
  by_cases hS : S = ""
  · subst hS
    simp [sync_tasks] at h
  · simp [sync_tasks, hS] at h
    rw [← h.1]
    show records_for (replace_step2 (replace_step1 st.TASK_STORE S) (fetch_all S)) S = _
    rw [replace_step2, records_for_append, records_for_replace_step1_self,
      records_for_fetch_all_self]
    simp [fetch_all]

/-- Witness for C1 at a concrete input: syncing "sponsor-abc" into the
empty state stores exactly the three adapters' outputs for it. -/
theorem C1_replace_exact_witness :
    records_for (sync_tasks ⟨[], []⟩ (some "sponsor-abc")).1.TASK_STORE "sponsor-abc"
      = get_salesforce_tasks "sponsor-abc" ++ get_asana_tasks "sponsor-abc"
        ++ get_google_calendar_tasks "sponsor-abc" :=
  C1_replace_exact ⟨[], []⟩ (sync_tasks ⟨[], []⟩ (some "sponsor-abc")).1 "sponsor-abc"
    (fetch_all "sponsor-abc") (by decide)

/-- C2: syncing sponsor A leaves the stored records of every other sponsor
B unchanged, as a sequence (same multiset, same relative order). -/
theorem C2_partition_isolation (st st' : AppState) (A B : String)
    (resp : Except ApiError (List Task)) (hAB : B ≠ A)
    (h : sync_tasks st (some A) = (st', resp)) :
    records_for st'.TASK_STORE B = records_for st.TASK_STORE B := by
  by_cases hA : A = ""
  · subst hA
    simp [sync_tasks] at h
    rw [← h.1]
  · simp [sync_tasks, hA] at h
    rw [← h.1]
    show records_for (replace_step2 (replace_step1 st.TASK_STORE A) (fetch_all A)) B = _
    rw [replace_step2, records_for_append, records_for_replace_step1_other _ _ _ hAB,
      records_for_fetch_all_other _ _ hAB]
    simp

/-- Witness for C2 at a concrete input: syncing "sponsor-xyz" after
"sponsor-abc" leaves the records of "sponsor-abc" unchanged. -/
theorem C2_partition_isolation_witness :
    records_for (sync_tasks (sync_tasks ⟨[], []⟩ (some "sponsor-abc")).1
        (some "sponsor-xyz")).1.TASK_STORE "sponsor-abc"
      = records_for (sync_tasks ⟨[], []⟩ (some "sponsor-abc")).1.TASK_STORE "sponsor-abc" :=
  C2_partition_isolation (sync_tasks ⟨[], []⟩ (some "sponsor-abc")).1
    (sync_tasks (sync_tasks ⟨[], []⟩ (some "sponsor-abc")).1 (some "sponsor-xyz")).1
    "sponsor-xyz" "sponsor-abc" (.ok (fetch_all "sponsor-xyz")) (by decide) (by decide)

/-- N repeated manual sync calls for the same sponsor. -/
def sync_n (st : AppState) (S : String) : Nat → AppState
  | 0 => st
  | n + 1 => (sync_tasks (sync_n st S n) (some S)).1

theorem mem_pySetAdd_self (s : List String) (x : String) : x ∈ pySetAdd s x := by
  unfold pySetAdd
  split
  · assumption
  · exact List.mem_cons_self x s

theorem pySetAdd_subset (s : List String) (x : String) : s ⊆ pySetAdd s x := by
  unfold pySetAdd
  split
  · exact fun _ h => h
  · exact fun _ h => List.mem_cons_of_mem x h

theorem pySetAdd_nodup (s : List String) (x : String) (h : s.Nodup) :
    (pySetAdd s x).Nodup := by
  unfold pySetAdd
  split
  · exact h
  · exact List.nodup_cons.mpr ⟨by assumption, h⟩

theorem sync_tasks_sponsors (st : AppState) (S : String) (hS : S ≠ "") :
    (sync_tasks st (some S)).1.SYNC_SPONSORS = pySetAdd st.SYNC_SPONSORS S := by
  simp [sync_tasks, hS]

theorem sync_n_sponsors_invariant (st : AppState) (S : String) (hS : S ≠ "")
    (hnd : st.SYNC_SPONSORS.Nodup) :
    ∀ n : Nat, (sync_n st S n).SYNC_SPONSORS.Nodup
      ∧ (1 ≤ n → S ∈ (sync_n st S n).SYNC_SPONSORS) := by
  intro n
  induction n with
  | zero => exact ⟨hnd, by omega⟩
  | succ k ih =>
    rw [sync_n, sync_tasks_sponsors _ _ hS]
    exact ⟨pySetAdd_nodup _ _ ih.1, fun _ => mem_pySetAdd_self _ _⟩

/-- C3: the registered-sponsor set only grows.  N ≥ 1 manual syncs for the
same sponsor S leave the (duplicate-free) set containing S exactly once;
and no operation — manual sync (successful or not), update, or the
periodic refresh — ever removes a sponsor from the set (`list_tasks` takes
no state and so cannot either). -/
theorem C3_registration_monotone :
    (∀ (st : AppState) (S : String) (n : Nat), S ≠ "" → 1 ≤ n →
        st.SYNC_SPONSORS.Nodup →
        (sync_n st S n).SYNC_SPONSORS.count S = 1)
    ∧ (∀ (st : AppState) (sid : Option String),
        st.SYNC_SPONSORS ⊆ (sync_tasks st sid).1.SYNC_SPONSORS)
    ∧ (∀ (st : AppState) (sp so nm ns : Option String),
        (update_task_by_fields st sp so nm ns).1.SYNC_SPONSORS = st.SYNC_SPONSORS)
    ∧ (∀ st : AppState, (periodic_sync st).SYNC_SPONSORS = st.SYNC_SPONSORS) := by
  refine ⟨?_, ?_, ?_, ?_⟩
  · intro st S n hS hn hnd
    have h := sync_n_sponsors_invariant st S hS hnd n
    exact List.count_eq_one_of_mem h.1 (h.2 hn)
  · intro st sid
    match sid with
    | none => exact fun _ h => h
    | some s =>
      by_cases hs : s = ""
      · simp [sync_tasks, hs]
      · rw [sync_tasks_sponsors _ _ hs]
        exact pySetAdd_subset _ _
  · intro st sp so nm ns
    match sp, so, nm, ns with
    | some a, some b, some c, some d =>
      simp only [update_task_by_fields]
      split
      · rfl
      · split <;> rfl
    | none, _, _, _ => rfl
    | some _, none, _, _ => rfl
    | some _, some _, none, _ => rfl
    | some _, some _, some _, none => rfl
  · intro st
    rfl

/-- Witness for C3 at concrete inputs: three syncs of "sponsor-abc" from
the empty state register it exactly once, and concrete sync / update /
periodic-refresh calls do not shrink the sponsor set. -/
theorem C3_registration_monotone_witness :
    (sync_n ⟨[], []⟩ "sponsor-abc" 3).SYNC_SPONSORS.count "sponsor-abc" = 1
    ∧ (⟨[], ["sponsor-abc"]⟩ : AppState).SYNC_SPONSORS
        ⊆ (sync_tasks ⟨[], ["sponsor-abc"]⟩ (some "sponsor-xyz")).1.SYNC_SPONSORS
    ∧ (update_task_by_fields ⟨[], ["sponsor-abc"]⟩ (some "sponsor-abc")
        (some "salesforce") (some "Upload logo") (some "done")).1.SYNC_SPONSORS
        = (⟨[], ["sponsor-abc"]⟩ : AppState).SYNC_SPONSORS
    ∧ (periodic_sync ⟨[], ["sponsor-abc"]⟩).SYNC_SPONSORS
        = (⟨[], ["sponsor-abc"]⟩ : AppState).SYNC_SPONSORS :=
  ⟨C3_registration_monotone.1 ⟨[], []⟩ "sponsor-abc" 3 (by decide) (by decide) (by decide),
   C3_registration_monotone.2.1 ⟨[], ["sponsor-abc"]⟩ (some "sponsor-xyz"),
   C3_registration_monotone.2.2.1 ⟨[], ["sponsor-abc"]⟩ (some "sponsor-abc")
     (some "salesforce") (some "Upload logo") (some "done"),
   C3_registration_monotone.2.2.2 ⟨[], ["sponsor-abc"]⟩⟩

/-- C4 counterexample: with a record whose sponsor_id is "sponsor-abc" in
the store, a sponsor filter provided as the empty string makes the code
return the whole store (Python truthiness treats "" as absent), while the
claim's exact-match filtering would return no records; so the claim fails
for this provided filter value. -/
theorem C4_counterexample_empty_filter :
    list_tasks [⟨"sponsor-abc", "salesforce", "Finalize contract", "2025-08-01", "pending"⟩]
        (some "") none
      ≠ list_tasks_spec
          [⟨"sponsor-abc", "salesforce", "Finalize contract", "2025-08-01", "pending"⟩]
          (some "") none := by
  decide

/-- C4 (amended): for every store and every combination of
provided/omitted filters in which a provided filter is a non-empty string,
`list_tasks` returns precisely the subsequence of stored records, in store
order, matching every provided filter (exact equality, logical AND); with
both omitted it returns all records.  (The read handler never writes the
store; it is a pure function of it.) -/
theorem C4_filter_correct (store : List Task) (sponsor status : Option String)
    (hs : sponsor ≠ some "") (ht : status ≠ some "") :
    list_tasks store sponsor status = list_tasks_spec store sponsor status := by
  match sponsor, status with
  | none, none =>
    simp [list_tasks, list_tasks_spec]
  | none, some u =>
    have hu : u ≠ "" := fun h => ht (by rw [h])
    simp [list_tasks, list_tasks_spec, hu]
  | some s, none =>
    have hs' : s ≠ "" := fun h => hs (by rw [h])
    simp [list_tasks, list_tasks_spec, hs']
  | some s, some u =>
    have hs' : s ≠ "" := fun h => hs (by rw [h])
    have hu : u ≠ "" := fun h => ht (by rw [h])
    simp only [list_tasks, list_tasks_spec, hs', hu, ne_eq, not_false_iff, if_true,
      List.filter_filter]
    apply List.filter_congr
    intro t _
    exact Bool.and_comm _ _

/-- Witness for the amended C4 at a concrete input: filtering the synced
records of "sponsor-abc" by sponsor and status agrees with the spec's
exact-match-AND filtering. -/
theorem C4_filter_correct_witness :
    list_tasks (fetch_all "sponsor-abc") (some "sponsor-abc") (some "pending")
      = list_tasks_spec (fetch_all "sponsor-abc") (some "sponsor-abc") (some "pending") :=
  C4_filter_correct (fetch_all "sponsor-abc") (some "sponsor-abc") (some "pending")
    (by decide) (by decide)

theorem task_matches_iff (t : Task) (a b c : String) :
    task_matches t a b c = true ↔ (t.sponsor_id = a ∧ t.source = b ∧ t.name = c) := by
  simp [task_matches, and_assoc]

/-- C5: with the four (non-empty) fields of an update request, the handler
leaves the store's length unchanged; at every position the new record is
the old one with status set to newStatus when the old record's
(sponsor_id, source, name) triple matches, and the old record unchanged
otherwise; it reports success iff at least one stored record matches; and
with zero matches it returns the not-found error with the state unchanged
bit-for-bit. -/
theorem C5_update_match_or_fail (st : AppState) (sp so nm ns : String)
    (hsp : sp ≠ "") (hso : so ≠ "") (hnm : nm ≠ "") (hns : ns ≠ "") :
    ((update_task_by_fields st (some sp) (some so) (some nm) (some ns)).1.TASK_STORE.length
        = st.TASK_STORE.length)
    ∧ (∀ (i : Nat) (t t' : Task),
        st.TASK_STORE.get? i = some t →
        (update_task_by_fields st (some sp) (some so) (some nm) (some ns)).1.TASK_STORE.get? i
          = some t' →
        ((t.sponsor_id = sp ∧ t.source = so ∧ t.name = nm) → t' = { t with status := ns })
        ∧ (¬(t.sponsor_id = sp ∧ t.source = so ∧ t.name = nm) → t' = t))
    ∧ ((update_task_by_fields st (some sp) (some so) (some nm) (some ns)).2 = .ok true
        ↔ ∃ t ∈ st.TASK_STORE, t.sponsor_id = sp ∧ t.source = so ∧ t.name = nm)
    ∧ ((¬∃ t ∈ st.TASK_STORE, t.sponsor_id = sp ∧ t.source = so ∧ t.name = nm) →
        update_task_by_fields st (some sp) (some so) (some nm) (some ns)
          = (st, .error (.notFound "No matching task found"))) := by
  have hval : ¬(sp = "" ∨ so = "" ∨ nm = "" ∨ ns = "") := by
    simp [hsp, hso, hnm, hns]
  have hexists :
      st.TASK_STORE.any (fun t => task_matches t sp so nm) = true
        ↔ ∃ t ∈ st.TASK_STORE, t.sponsor_id = sp ∧ t.source = so ∧ t.name = nm := by
    rw [List.any_eq_true]
    constructor
    · rintro ⟨t, ht, hm⟩
      exact ⟨t, ht, (task_matches_iff t sp so nm).mp hm⟩
    · rintro ⟨t, ht, hm⟩
      exact ⟨t, ht, (task_matches_iff t sp so nm).mpr hm⟩
  have hstore :
      (update_task_by_fields st (some sp) (some so) (some nm) (some ns)).1.TASK_STORE
        = st.TASK_STORE.map
            (fun t => if task_matches t sp so nm then { t with status := ns } else t) := by
    simp only [update_task_by_fields, hval, if_false]
    split <;> rfl
  have hsponsors :
      (update_task_by_fields st (some sp) (some so) (some nm) (some ns)).1.SYNC_SPONSORS
        = st.SYNC_SPONSORS := by
    simp only [update_task_by_fields, hval, if_false]
    split <;> rfl
  refine ⟨?_, ?_, ?_, ?_⟩
  · rw [hstore]
    exact List.length_map _ _
  · intro i t t' hget hget'
    rw [hstore, List.get?_map, hget] at hget'
    simp only [Option.map_some', Option.some.injEq] at hget'
    constructor
    · intro hm
      rw [← hget']
      simp [(task_matches_iff t sp so nm).mpr hm]
    · intro hm
      have hb : task_matches t sp so nm = false := by
        rw [← Bool.not_eq_true]
        exact fun hc => hm ((task_matches_iff t sp so nm).mp hc)
      rw [← hget']
      simp [hb]
  · by_cases hm : st.TASK_STORE.any (fun t => task_matches t sp so nm) = true
    · have hres :
          (update_task_by_fields st (some sp) (some so) (some nm) (some ns)).2 = .ok true := by
        simp only [update_task_by_fields, hval, if_false, hm, if_true]
      rw [hres]
      exact iff_of_true rfl (hexists.mp hm)
    · have hmf : st.TASK_STORE.any (fun t => task_matches t sp so nm) = false := by
        rw [← Bool.not_eq_true]
        exact hm
      have hres :
          (update_task_by_fields st (some sp) (some so) (some nm) (some ns)).2
            = .error (.notFound "No matching task found") := by
        simp only [update_task_by_fields, hval, if_false, hmf, Bool.false_eq_true]
      rw [hres]
      constructor
      · intro hc
        exact absurd hc (by simp)
      · intro hc
        exact absurd (hexists.mpr hc) hm
  · intro hnone
    have hm : ¬ st.TASK_STORE.any (fun t => task_matches t sp so nm) = true := by
      rw [hexists]
      exact hnone
    have hmf : st.TASK_STORE.any (fun t => task_matches t sp so nm) = false := by
      rw [← Bool.not_eq_true]
      exact hm
    have hid : st.TASK_STORE.map
        (fun t => if task_matches t sp so nm then { t with status := ns } else t)
        = st.TASK_STORE := by
      have hpt : ∀ t ∈ st.TASK_STORE,
          (if task_matches t sp so nm then { t with status := ns } else t) = t := by
        intro t ht
        have hb : task_matches t sp so nm = false := by
          rw [List.any_eq_false] at hmf
          simpa using hmf t ht
        simp [hb]
      rw [List.map_congr_left hpt, List.map_id']
    have hres :
        (update_task_by_fields st (some sp) (some so) (some nm) (some ns)).2
          = .error (.notFound "No matching task found") := by
      simp only [update_task_by_fields, hval, if_false, hmf, Bool.false_eq_true]
    have h1 :
        (update_task_by_fields st (some sp) (some so) (some nm) (some ns)).1 = st := by
      have heta :
          (update_task_by_fields st (some sp) (some so) (some nm) (some ns)).1
            = AppState.mk
                (update_task_by_fields st (some sp) (some so) (some nm) (some ns)).1.TASK_STORE
                (update_task_by_fields st (some sp) (some so) (some nm) (some ns)).1.SYNC_SPONSORS := rfl
      rw [heta, hstore, hid, hsponsors]
    rw [Prod.ext_iff]
    exact ⟨h1, hres⟩

/-- Witness for C5 at a concrete input: updating the synced store of
"sponsor-abc" at ("sponsor-abc", "salesforce", "Finalize contract"). -/
theorem C5_update_match_or_fail_witness :
    ((update_task_by_fields ⟨fetch_all "sponsor-abc", ["sponsor-abc"]⟩ (some "sponsor-abc")
        (some "salesforce") (some "Finalize contract") (some "done")).2 = .ok true
      ↔ ∃ t ∈ (fetch_all "sponsor-abc"),
          t.sponsor_id = "sponsor-abc" ∧ t.source = "salesforce"
            ∧ t.name = "Finalize contract") :=
  (C5_update_match_or_fail ⟨fetch_all "sponsor-abc", ["sponsor-abc"]⟩ "sponsor-abc"
    "salesforce" "Finalize contract" "done"
    (by decide) (by decide) (by decide) (by decide)).2.2.1

/-- C6: in the sync handler the three adapter fetches (lines 101-104) all
happen before the store mutation (lines 107-109), so if any adapter call
fails the failure propagates to the caller and the store — in particular
the records for S — is exactly as before the call; and only when all
three adapters succeed does the complete replace happen. -/
theorem C6_failure_atomicity (st : AppState) (S : String)
    (sf asn gc : String → Except ApiError (List Task)) (hS : S ≠ "") :
    (((∃ e, sf S = .error e) ∨ (∃ e, asn S = .error e) ∨ (∃ e, gc S = .error e)) →
       (∃ e, (sync_tasks_with st (some S) sf asn gc).2 = .error e)
       ∧ (sync_tasks_with st (some S) sf asn gc).1.TASK_STORE = st.TASK_STORE
       ∧ records_for (sync_tasks_with st (some S) sf asn gc).1.TASK_STORE S
           = records_for st.TASK_STORE S)
    ∧ (∀ t1 t2 t3, sf S = .ok t1 → asn S = .ok t2 → gc S = .ok t3 →
       (sync_tasks_with st (some S) sf asn gc).2 = .ok (t1 ++ t2 ++ t3)
       ∧ (sync_tasks_with st (some S) sf asn gc).1.TASK_STORE
           = replace_step2 (replace_step1 st.TASK_STORE S) (t1 ++ t2 ++ t3)) := by
  constructor
  · intro hfail
    cases hsf : sf S with
    | error e =>
      simp [sync_tasks_with, hS, hsf]
    | ok t1 =>
      cases hasn : asn S with
      | error e =>
        simp [sync_tasks_with, hS, hsf, hasn]
      | ok t2 =>
        cases hgc : gc S with
        | error e =>
          simp [sync_tasks_with, hS, hsf, hasn, hgc]
        | ok t3 =>
          rcases hfail with ⟨e, he⟩ | ⟨e, he⟩ | ⟨e, he⟩
          · rw [hsf] at he
            exact absurd he (by simp)
          · rw [hasn] at he
            exact absurd he (by simp)
          · rw [hgc] at he
            exact absurd he (by simp)
  · intro t1 t2 t3 hsf hasn hgc
    simp [sync_tasks_with, hS, hsf, hasn, hgc]

/-- Witness for C6 at a concrete input: a failing Asana adapter makes the
sync surface an error and leaves the store (holding one prior record for
the sponsor) untouched. -/
theorem C6_failure_atomicity_witness :
    (∃ e, (sync_tasks_with
        ⟨[⟨"sponsor-abc", "salesforce", "Old record", "2025-01-01", "pending"⟩], ["sponsor-abc"]⟩
        (some "sponsor-abc")
        (fun s => .ok (get_salesforce_tasks s))
        (fun _ => .error (.sourceFetchFailure "asana"))
        (fun s => .ok (get_google_calendar_tasks s))).2 = .error e)
    ∧ (sync_tasks_with
        ⟨[⟨"sponsor-abc", "salesforce", "Old record", "2025-01-01", "pending"⟩], ["sponsor-abc"]⟩
        (some "sponsor-abc")
        (fun s => .ok (get_salesforce_tasks s))
        (fun _ => .error (.sourceFetchFailure "asana"))
        (fun s => .ok (get_google_calendar_tasks s))).1.TASK_STORE
      = [⟨"sponsor-abc", "salesforce", "Old record", "2025-01-01", "pending"⟩]
    ∧ records_for (sync_tasks_with
        ⟨[⟨"sponsor-abc", "salesforce", "Old record", "2025-01-01", "pending"⟩], ["sponsor-abc"]⟩
        (some "sponsor-abc")
        (fun s => .ok (get_salesforce_tasks s))
        (fun _ => .error (.sourceFetchFailure "asana"))
        (fun s => .ok (get_google_calendar_tasks s))).1.TASK_STORE "sponsor-abc"
      = records_for [⟨"sponsor-abc", "salesforce", "Old record", "2025-01-01", "pending"⟩]
          "sponsor-abc" :=
  (C6_failure_atomicity
      ⟨[⟨"sponsor-abc", "salesforce", "Old record", "2025-01-01", "pending"⟩], ["sponsor-abc"]⟩
      "sponsor-abc"
      (fun s => .ok (get_salesforce_tasks s))
      (fun _ => .error (.sourceFetchFailure "asana"))
      (fun s => .ok (get_google_calendar_tasks s))
      (by decide)).1
    (Or.inr (Or.inl ⟨.sourceFetchFailure "asana", rfl⟩))

/-- C8: starting from an empty store, syncing "sponsor-abc" stores exactly
6 records (2 per source), all "pending" except the asana
"Post campaign assets" record which is "done"; then
UpdateStatus("sponsor-abc","salesforce","Finalize contract","done")
changes exactly that one record's status, after which listing with status
filter "done" returns exactly 2 records. -/
theorem C8_scenario :
    scenario_st1.TASK_STORE.length = 6
    ∧ (scenario_st1.TASK_STORE.filter (fun t => t.source = "salesforce")).length = 2
    ∧ (scenario_st1.TASK_STORE.filter (fun t => t.source = "asana")).length = 2
    ∧ (scenario_st1.TASK_STORE.filter (fun t => t.source = "google_calendar")).length = 2
    ∧ scenario_st1.TASK_STORE.filter (fun t => t.status ≠ "pending")
        = [⟨"sponsor-abc", "asana", "Post campaign assets", "2025-07-30", "done"⟩]
    ∧ scenario_upd.2 = .ok true
    ∧ scenario_upd.1.TASK_STORE.length = 6
    ∧ scenario_upd.1.TASK_STORE.get? 0
        = some ⟨"sponsor-abc", "salesforce", "Finalize contract", "2025-08-01", "done"⟩
    ∧ scenario_upd.1.TASK_STORE.drop 1 = scenario_st1.TASK_STORE.drop 1
    ∧ (list_tasks scenario_upd.1.TASK_STORE none (some "done")).length = 2 := by
  decide

/-- C10: a filter provided as the empty string behaves exactly as an
omitted filter, for either parameter of `list_tasks`. -/
theorem C10_empty_filter_is_omitted (store : List Task)
    (sponsor status : Option String) :
    list_tasks store (some "") status = list_tasks store none status
    ∧ list_tasks store sponsor (some "") = list_tasks store sponsor none := by
  constructor <;> simp [list_tasks]

/-- C9: the store mutation of a sync is the two separate steps
`replace_step1` (rebind `TASK_STORE` to the filtered list, line 108) then
`replace_step2` (extend with the fetched tasks, line 109); a reader that
runs between the two steps observes the sponsor's old records removed and
the new ones not yet inserted (here: 0 records for "sponsor-abc", against
6 both before step 1 and after step 2).  This exhibits the race window the
claim says must not exist. -/
theorem C9_race_window_observable :
    (sync_tasks scenario_st1 (some "sponsor-abc")).1.TASK_STORE
        = replace_step2 (replace_step1 scenario_st1.TASK_STORE "sponsor-abc")
            (fetch_all "sponsor-abc")
    ∧ (list_tasks scenario_st1.TASK_STORE (some "sponsor-abc") none).length = 6
    ∧ list_tasks (replace_step1 scenario_st1.TASK_STORE "sponsor-abc")
        (some "sponsor-abc") none = []
    ∧ (list_tasks (replace_step2 (replace_step1 scenario_st1.TASK_STORE "sponsor-abc")
        (fetch_all "sponsor-abc")) (some "sponsor-abc") none).length = 6 := by
  decide

/-- C7: a sync request whose sponsor_id is missing or empty, and an update
request with any of the four fields missing or empty, return the
invalid-input error and leave the state (store and sponsor set) exactly
unchanged. -/
theorem C7_invalid_input_no_mutation :
    (∀ (st : AppState) (sponsor : Option String),
        sponsor = none ∨ sponsor = some "" →
        sync_tasks st sponsor = (st, .error (.invalidInput "Missing sponsor_id")))
    ∧ (∀ (st : AppState) (sp so nm ns : Option String),
        sp = none ∨ sp = some "" ∨ so = none ∨ so = some ""
          ∨ nm = none ∨ nm = some "" ∨ ns = none ∨ ns = some "" →
        update_task_by_fields st sp so nm ns
          = (st, .error (.invalidInput "Must include sponsor_id, source, name, and status"))) := by
  constructor
  · rintro st sponsor (rfl | rfl) <;> rfl
  · rintro st sp so nm ns h
    cases sp <;> cases so <;> cases nm <;> cases ns <;>
      simp_all [update_task_by_fields]

/-- Witness for C7 at concrete inputs: a sync with sponsor_id absent and
an update with an empty source field both fail without mutating state. -/
theorem C7_invalid_input_no_mutation_witness :
    sync_tasks ⟨[], []⟩ none = (⟨[], []⟩, .error (.invalidInput "Missing sponsor_id"))
    ∧ update_task_by_fields ⟨[], ["sponsor-abc"]⟩ (some "sponsor-abc") (some "")
        (some "Finalize contract") (some "done")
      = (⟨[], ["sponsor-abc"]⟩,
         .error (.invalidInput "Must include sponsor_id, source, name, and status")) :=
  ⟨C7_invalid_input_no_mutation.1 ⟨[], []⟩ none (Or.inl rfl),
   C7_invalid_input_no_mutation.2 ⟨[], ["sponsor-abc"]⟩ (some "sponsor-abc") (some "")
     (some "Finalize contract") (some "done")
     (Or.inr (Or.inr (Or.inr (Or.inl rfl))))⟩

end Sponsorship
